import Mathlib

/-!
Shallow embedding of the asynchronous render-cache pipeline of the
`cocktail` model-gallery, from `src/cocktail/ui/model_gallery/delegate.py`
(classes `ImageWorker`, `ItemRenderWidget`, `ModelGalleryItemDelegate`) and
the resize handler `ImageGalleryListView.resizeEvent` of
`src/cocktail/ui/model_gallery/view.py`.

Modelling conventions:
* `QtCore.QSize` becomes a pair of integers (`QSize`).
* `QtGui.QImage` becomes a record of its null flag, its `cacheKey()` value
  (a unique per-image generation number, here a `Nat`), and a provenance tag
  recording whether the bitmap is an original decode or the output of a
  worker scale to some target size.  Qt's content-based `QImage` equality is
  modelled by structural equality of these records.
* Python dicts (`_pixmap_cache`, `_image_cache`, `_pending_loads`) become
  insertion-ordered association lists with insert-or-replace-in-place
  semantics, matching CPython dict ordering guarantees; `_pending_loads`
  keeps only its keys (its values are weak references that the delegate
  never reads).
* The rendered pixmap produced by `ItemRenderWidget.render` is abstracted
  to the image the widget would draw (`DisplaySrc`, computed by the faithful
  embedding of `_getDisplayImage`); the label texts, margins and border
  drawing do not affect any cache or dispatch decision.  The floating-point
  target-size arithmetic in `paint` (aspect-ratio math) and the
  error-placeholder down-scaling in `_getDisplayImage` are likewise elided:
  no cache key, cache content decision or dispatch decision depends on them.
* Cross-thread signal delivery is modelled by explicitly applying the
  worker function (`processImage`) and the completion slot (`onImageReady`)
  as pipeline steps.
-/

/-- QtCore.QSize: a width/height pair of machine integers. -/
structure QSize where
  w : Int
  h : Int
deriving DecidableEq, Repr

/-- Provenance of a bitmap: an original decode, or the output of
`QImage.scaled` for some target size (as produced by `ImageWorker`). -/
inductive ScaleTag where
  | original : ScaleTag
  | scaledTo : QSize → ScaleTag
deriving DecidableEq, Repr

/-- QtGui.QImage: null flag, `cacheKey()` generation number, provenance. -/
structure QImage where
  isNull : Bool
  fp : Nat
  tag : ScaleTag
deriving DecidableEq, Repr

/-- Python `f"{b}"` rendering of a bool. -/
def pyBoolStr (b : Bool) : String :=
  if b then "True" else "False"

/-- CPython `hash` on a non-negative int: reduction modulo 2^61 - 1
(the Mersenne prime used by CPython's integer hashing on 64-bit builds).
`_getCacheKey` applies this to the `cacheKey()` of the decoration image. -/
def pyHash (n : Nat) : Nat :=
  n % 2305843009213693951

/-- One row of the gallery model as the delegate reads it: `NameRole`,
`TypeRole` and `Qt.DecorationRole` data (each possibly absent). -/
structure GalleryItem where
  name : Option String
  itemType : Option String
  decoration : Option QImage
deriving DecidableEq, Repr

/-- The `image_key` fragment used by both key derivations:
`hash(image.cacheKey()) if image and not image.isNull() else "no_image"`. -/
def imageKeyStr (decoration : Option QImage) : String :=
  match decoration with
  | some image => if image.isNull then "no_image" else toString (pyHash image.fp)
  | none => "no_image"

/-- `ModelGalleryItemDelegate._getCacheKey`: underscore-joined string of
name, type, image fingerprint, selection flag and item size. -/
def getCacheKey (item : GalleryItem) (selected : Bool) (itemSize : QSize) : String :=
  (item.name.getD "") ++ "_" ++ (item.itemType.getD "") ++ "_" ++
    imageKeyStr item.decoration ++ "_" ++ pyBoolStr selected ++ "_" ++
    toString itemSize.w ++ "_" ++ toString itemSize.h

/-- `ModelGalleryItemDelegate._getImageCacheKey`: `img_` followed by the
image fingerprint and the item size. -/
def getImageCacheKey (item : GalleryItem) (itemSize : QSize) : String :=
  "img_" ++ imageKeyStr item.decoration ++ "_" ++
    toString itemSize.w ++ "_" ++ toString itemSize.h

/-- Insertion-ordered association list modelling a CPython dict. -/
abbrev PyDict (α : Type) := List (String × α)

/-- Dict lookup (`d[k]` / `d.get(k)`): first entry with the given key. -/
def dlookup {α : Type} : PyDict α → String → Option α
  | [], _ => none
  | (k, v) :: t, key => if k = key then some v else dlookup t key

/-- Dict membership (`k in d`). -/
def dmem {α : Type} (d : PyDict α) (k : String) : Bool :=
  (dlookup d k).isSome

/-- Dict assignment (`d[k] = v`): replace in place if the key is present
(CPython keeps the original position), else append at the end. -/
def dinsert {α : Type} (d : PyDict α) (k : String) (v : α) : PyDict α :=
  if dmem d k then d.map (fun p => if p.1 = k then (k, v) else p)
  else d ++ [(k, v)]

/-- Dict deletion (`del d[k]`): under the unique-keys invariant this is
removal of every entry carrying the key. -/
def ddel {α : Type} (d : PyDict α) (k : String) : PyDict α :=
  d.filter (fun p => p.1 ≠ k)

/-- `list(d.keys())`: keys in insertion order. -/
def dkeys {α : Type} (d : PyDict α) : List String :=
  d.map Prod.fst

/-- Well-formedness of a modelled dict: keys are pairwise distinct. -/
def NodupKeys {α : Type} (d : PyDict α) : Prop :=
  (dkeys d).Nodup

/-- The image an `ItemRenderWidget` paint pass would draw, as selected by
`_getDisplayImage`: the loading placeholder, the widget-level scaled cache,
the scaled error placeholder, or the widget's current image itself. -/
inductive DisplaySrc where
  | loadingPlaceholder : DisplaySrc
  | widgetScaledCache : QImage → DisplaySrc
  | errorPlaceholder : DisplaySrc
  | fromImage : QImage → DisplaySrc
deriving DecidableEq, Repr

/-- Mutable state of the shared `ItemRenderWidget` used by the delegate:
`_image` (a QImage or Python `None`), `_scaled_image_cache`, `_cache_size`,
`_is_loading`, and whether `_loading_placeholder` has been created. -/
structure WidgetState where
  image : Option QImage
  scaledCache : Option QImage
  cacheSize : QSize
  isLoading : Bool
  hasLoadingPlaceholder : Bool
deriving DecidableEq, Repr

/-- `ItemRenderWidget.__init__`: `_image = QImage()` (a null image),
no scaled cache, default-constructed (invalid) `_cache_size`, not loading,
no loading placeholder yet. -/
def initWidget : WidgetState :=
  { image := some { isNull := true, fp := 0, tag := .original },
    scaledCache := none,
    cacheSize := { w := -1, h := -1 },
    isLoading := false,
    hasLoadingPlaceholder := false }

/-- `ItemRenderWidget.resize`: clears the widget-level scaled cache when the
size changes (the layout-margin arithmetic has no cache effect). -/
def widgetResize (w : WidgetState) (size : QSize) : WidgetState :=
  if w.cacheSize ≠ size then { w with scaledCache := none, cacheSize := size }
  else w

/-- `ItemRenderWidget.setImage`: on a changed image, store it, drop the
widget-level scaled cache and reset the loading flag; a no-op otherwise. -/
def setImage (w : WidgetState) (img : Option QImage) : WidgetState :=
  if w.image ≠ img then
    { w with image := img, scaledCache := none, isLoading := false }
  else w

/-- `ItemRenderWidget.setLoadingState`: sets the loading flag and creates
the loading placeholder on first use. -/
def setLoadingState (w : WidgetState) (loading : Bool) : WidgetState :=
  { w with isLoading := loading,
           hasLoadingPlaceholder := w.hasLoadingPlaceholder || loading }

/-- `ItemRenderWidget._getDisplayImage`: loading placeholder while loading,
else the widget scaled cache, else the error placeholder for an absent or
null image, else the current image unchanged. -/
def getDisplayImage (w : WidgetState) : DisplaySrc :=
  if w.isLoading && w.hasLoadingPlaceholder then .loadingPlaceholder
  else
    match w.scaledCache with
    | some s => .widgetScaledCache s
    | none =>
      match w.image with
      | none => .errorPlaceholder
      | some img => if img.isNull then .errorPlaceholder else .fromImage img

/-- `ModelGalleryItemDelegate` state: item size, the shared render widget,
the two caches, the pending-loads tracker (keys only: the stored weak
references are never consulted), and a log of `loadImage` dispatches to the
`AsyncImageLoader` (each entry is the cache key and the image handed to the
worker); the log models the stream of jobs sent to the worker thread. -/
structure DelegateState where
  itemSize : QSize
  widget : WidgetState
  pixmapCache : PyDict DisplaySrc
  imageCache : PyDict QImage
  pendingLoads : List String
  dispatchLog : List (String × QImage)
deriving DecidableEq, Repr

/-- `ModelGalleryItemDelegate.__init__`: item size 450x650, empty caches,
no pending loads. -/
def initDelegate : DelegateState :=
  { itemSize := { w := 450, h := 650 },
    widget := initWidget,
    pixmapCache := [],
    imageCache := [],
    pendingLoads := [],
    dispatchLog := [] }

/-- `self._max_cache_size = 200` (rendered-pixmap cache bound). -/
def maxCacheSize : Nat := 200

/-- `self._max_image_cache_size = 100` (processed-image cache bound). -/
def maxImageCacheSize : Nat := 100

/-- `ModelGalleryItemDelegate.setItemSize`: stores the size, resizes the
widget, and clears the two caches (but not `_pending_loads`). -/
def setItemSize (s : DelegateState) (size : QSize) : DelegateState :=
  { s with itemSize := size,
           widget := widgetResize s.widget size,
           pixmapCache := [],
           imageCache := [] }

/-- `ModelGalleryItemDelegate.clearCaches`: clears both caches and the
pending-loads tracker. -/
def clearCaches (s : DelegateState) : DelegateState :=
  { s with pixmapCache := [], imageCache := [], pendingLoads := [] }

/-- Characters after the first `'_'`: Python `s.split('_', 1)[1]`.
(The source would raise `IndexError` on a string with no underscore; every
dispatched key starts with `"img_"`, so the fallback value is unreachable
for keys produced by the pipeline.) -/
def afterFirstUnderscore : List Char → List Char
  | [] => []
  | c :: t => if c = '_' then t else afterFirstUnderscore t

/-- Contiguous-occurrence test on character lists, Python's `needle in hay`
for strings. -/
def charsOccurIn (needle : List Char) : List Char → Bool
  | [] => needle.isEmpty
  | c :: t => needle.isPrefixOf (c :: t) || charsOccurIn needle t

/-- Python substring test `needle in hay`. -/
def strOccursIn (needle hay : String) : Bool :=
  charsOccurIn needle.data hay.data

/-- `ModelGalleryItemDelegate._onImageReady`: store the processed image
only while the image cache is below its bound; delete every pixmap-cache
entry whose key contains `cache_key.split('_', 1)[1]` as a substring;
remove the key from `_pending_loads` if present. -/
def onImageReady (s : DelegateState) (cacheKey : String) (processed : QImage) :
    DelegateState :=
  let imageCache' :=
    if s.imageCache.length < maxImageCacheSize then
      dinsert s.imageCache cacheKey processed
    else s.imageCache
  let needle := String.mk (afterFirstUnderscore cacheKey.data)
  let pixmapCache' := s.pixmapCache.filter (fun p => ¬ strOccursIn needle p.1)
  let pendingLoads' := s.pendingLoads.filter (fun k => k ≠ cacheKey)
  { s with imageCache := imageCache',
           pixmapCache := pixmapCache',
           pendingLoads := pendingLoads' }

/-- The cache-management step of `paint`: when the pixmap cache has reached
`_max_cache_size`, delete the first 20 keys in insertion order. -/
def evictIfFull (d : PyDict DisplaySrc) : PyDict DisplaySrc :=
  if maxCacheSize ≤ d.length then ((dkeys d).take 20).foldl ddel d
  else d

/-- The widget-setup and dispatch portion of `paint` (run only on a pixmap
cache miss): use the cached processed image if present; else, for a valid
image with no pending load, mark loading, record the pending load and
dispatch a scale job; else fall back to the raw image (or `None`). -/
def paintSetup (s : DelegateState) (item : GalleryItem) : DelegateState :=
  let imageCacheKey := getImageCacheKey item s.itemSize
  match dlookup s.imageCache imageCacheKey with
  | some cached =>
    { s with widget := setLoadingState (setImage s.widget (some cached)) false }
  | none =>
    match item.decoration with
    | some image =>
      if !image.isNull && !(s.pendingLoads.contains imageCacheKey) then
        { s with
          widget := setLoadingState (setImage s.widget (some image)) true,
          pendingLoads := s.pendingLoads ++ [imageCacheKey],
          dispatchLog := s.dispatchLog ++ [(imageCacheKey, image)] }
      else
        { s with widget := setLoadingState (setImage s.widget (some image)) false }
    | none =>
      { s with widget := setLoadingState (setImage s.widget none) false }

/-- `ModelGalleryItemDelegate.paint`: on a pixmap-cache hit, draw the cached
pixmap and return; on a miss, run the setup/dispatch step, render the
widget (the rendered payload is the widget's display image), evict when the
cache is full, and store the new payload.  Returns the new state and the
payload drawn. -/
def paint (s : DelegateState) (item : GalleryItem) (selected : Bool) :
    DelegateState × DisplaySrc :=
  let cacheKey := getCacheKey item selected s.itemSize
  match dlookup s.pixmapCache cacheKey with
  | some pm => (s, pm)
  | none =>
    let s1 := paintSetup s item
    let payload := getDisplayImage s1.widget
    let pc := evictIfFull s1.pixmapCache
    ({ s1 with pixmapCache := dinsert pc cacheKey payload }, payload)

/-- `ImageWorker.processImage`: a null input is reported back unchanged;
otherwise the image is scaled (smooth interpolation when either target
dimension exceeds 400, fast otherwise) and the scaled image reported; a
failure of the scale call (`scaleFn` returning `none` models the raised
exception caught by the `except` branch) reports the original image.  The
function always returns exactly one `(cache_key, image)` completion. -/
def processImage (scaleFn : QImage → QSize → Bool → Option QImage)
    (cacheKey : String) (image : QImage) (targetSize : QSize) :
    String × QImage :=
  if image.isNull then (cacheKey, image)
  else
    let smooth := 400 < targetSize.w || 400 < targetSize.h
    match scaleFn image targetSize smooth with
    | some scaled => (cacheKey, scaled)
    | none => (cacheKey, image)

/-- Reference model of Qt's `QImage.scaled`: a total scale that returns a
copy of the bitmap tagged with its target size (used to instantiate
`processImage` at concrete inputs). -/
def qtScaled (img : QImage) (target : QSize) (_smooth : Bool) : Option QImage :=
  some { img with tag := .scaledTo target }

/-- `ImageGalleryListView.resizeEvent`: when the width changes by more than
50 pixels, the grid size is recomputed (`newGridSize` stands for the result
of `calculateGridSize`, whose floating-point layout arithmetic is elided);
`setGridSize` emits `gridSizeChanged` only on an actual change, which calls
the delegate's `setItemSize`; afterwards the delegate's `clearCaches` is
invoked.  Otherwise nothing happens. -/
def resizeEvent (s : DelegateState) (oldWidth newWidth : Int)
    (newGridSize : QSize) : DelegateState :=
  if 50 < (newWidth - oldWidth).natAbs then
    let s1 := if s.itemSize ≠ newGridSize then setItemSize s newGridSize else s
    clearCaches s1
  else s

/-- One externally triggered pipeline operation: a paint request, a worker
completion delivered to `_onImageReady`, a view resize event, a direct
`setItemSize` (the `gridSizeChanged` path), or a cache clear (model reset /
memory pressure). -/
inductive GalleryOp where
  | paintReq : GalleryItem → Bool → GalleryOp
  | complete : String → QImage → GalleryOp
  | resize : Int → Int → QSize → GalleryOp
  | setSize : QSize → GalleryOp
  | clearAll : GalleryOp

/-- Apply one operation to the delegate state. -/
def applyOp (s : DelegateState) : GalleryOp → DelegateState
  | .paintReq item selected => (paint s item selected).1
  | .complete cacheKey img => onImageReady s cacheKey img
  | .resize ow nw g => resizeEvent s ow nw g
  | .setSize size => setItemSize s size
  | .clearAll => clearCaches s

/-- Run a sequence of operations from a starting state. -/
def runOps (s : DelegateState) (ops : List GalleryOp) : DelegateState :=
  ops.foldl applyOp s

/-- Number of scale jobs dispatched so far whose cache key is `k`. -/
def dispatchCount (s : DelegateState) (k : String) : Nat :=
  (s.dispatchLog.filter (fun e => e.1 = k)).length

/-! ### Dictionary lemmas -/

section DictLemmas

variable {α : Type}

instance (d : PyDict α) : Decidable (NodupKeys d) := by
  unfold NodupKeys; infer_instance

theorem dlookup_eq_none_iff (d : PyDict α) (k : String) :
    dlookup d k = none ↔ k ∉ dkeys d := by
  induction d with
  | nil => simp [dlookup, dkeys]
  | cons p t ih =>
    obtain ⟨k', v⟩ := p
    by_cases h : k' = k
    · constructor
      · intro hc
        rw [show dlookup ((k', v) :: t) k = some v from by simp [dlookup, h]] at hc
        exact Option.noConfusion hc
      · intro hc
        refine absurd ?_ hc
        simp only [dkeys, List.map_cons, List.mem_cons]
        exact Or.inl h.symm
    · have hd : dlookup ((k', v) :: t) k = dlookup t k := by
        simp [dlookup, h]
      have hk : k ∈ dkeys ((k', v) :: t) ↔ k ∈ dkeys t := by
        simp only [dkeys, List.map_cons, List.mem_cons]
        exact or_iff_right (fun hc => h hc.symm)
      rw [hd, ih, hk]

theorem dmem_eq_true_iff (d : PyDict α) (k : String) :
    dmem d k = true ↔ k ∈ dkeys d := by
  rw [dmem, Option.isSome_iff_exists]
  constructor
  · rintro ⟨v, hv⟩
    by_contra h
    rw [← dlookup_eq_none_iff] at h
    simp [h] at hv
  · intro h
    rcases ho : dlookup d k with _ | v
    · exact absurd ((dlookup_eq_none_iff d k).mp ho) (not_not_intro h)
    · exact ⟨v, rfl⟩

theorem dinsert_length_le (d : PyDict α) (k : String) (v : α) :
    (dinsert d k v).length ≤ d.length + 1 := by
  unfold dinsert
  by_cases h : dmem d k = true <;> simp [h]

theorem dkeys_dinsert_of_mem (d : PyDict α) (k : String) (v : α)
    (h : dmem d k = true) : dkeys (dinsert d k v) = dkeys d := by
  unfold dinsert
  rw [if_pos h]
  unfold dkeys
  rw [List.map_map]
  refine List.map_congr_left ?_
  intro p _
  by_cases hp : p.1 = k <;> simp [hp]

theorem dkeys_dinsert_of_not_mem (d : PyDict α) (k : String) (v : α)
    (h : ¬ dmem d k = true) : dkeys (dinsert d k v) = dkeys d ++ [k] := by
  unfold dinsert
  rw [if_neg h]
  simp [dkeys]

theorem nodupKeys_dinsert (d : PyDict α) (k : String) (v : α)
    (h : NodupKeys d) : NodupKeys (dinsert d k v) := by
  unfold NodupKeys
  by_cases hm : dmem d k = true
  · rw [dkeys_dinsert_of_mem d k v hm]; exact h
  · rw [dkeys_dinsert_of_not_mem d k v hm]
    have hk : k ∉ dkeys d := fun hc => hm ((dmem_eq_true_iff d k).mpr hc)
    unfold NodupKeys at h
    simp [List.nodup_append, h, hk]

theorem nodupKeys_filter (d : PyDict α) (p : String × α → Bool)
    (h : NodupKeys d) : NodupKeys (d.filter p) :=
  ((d.filter_sublist).map Prod.fst).nodup h

theorem nodupKeys_drop (d : PyDict α) (n : Nat)
    (h : NodupKeys d) : NodupKeys (d.drop n) :=
  ((List.drop_sublist n d).map Prod.fst).nodup h

theorem ddel_eq_self_of_not_mem (d : PyDict α) (k : String)
    (h : k ∉ dkeys d) : ddel d k = d := by
  unfold ddel
  refine List.filter_eq_self.mpr ?_
  intro p hp
  have : p.1 ∈ dkeys d := List.mem_map_of_mem Prod.fst hp
  simp only [decide_eq_true_eq]
  exact fun he => h (he ▸ this)

theorem foldl_ddel_take_eq_drop (n : Nat) (d : PyDict α) (h : NodupKeys d) :
    ((dkeys d).take n).foldl ddel d = d.drop n := by
  induction n generalizing d with
  | zero => simp
  | succ n ih =>
    match d with
    | [] => simp [dkeys]
    | (k, v) :: t =>
      have hk : k ∉ dkeys t ∧ NodupKeys t := by
        simpa [NodupKeys, dkeys] using h
      have hdel : ddel ((k, v) :: t) k = t := by
        unfold ddel
        simp only [List.filter_cons]
        rw [if_neg (by simp)]
        exact ddel_eq_self_of_not_mem t k hk.1
      calc ((dkeys ((k, v) :: t)).take (n + 1)).foldl ddel ((k, v) :: t)
          = ((dkeys t).take n).foldl ddel (ddel ((k, v) :: t) k) := by
            simp [dkeys, List.foldl_cons]
        _ = ((dkeys t).take n).foldl ddel t := by rw [hdel]
        _ = t.drop n := ih t hk.2
        _ = ((k, v) :: t).drop (n + 1) := by simp

theorem evictIfFull_eq_drop (d : PyDict DisplaySrc) (h : NodupKeys d)
    (hfull : maxCacheSize ≤ d.length) : evictIfFull d = d.drop 20 := by
  unfold evictIfFull
  rw [if_pos hfull]
  exact foldl_ddel_take_eq_drop 20 d h

theorem evictIfFull_eq_self (d : PyDict DisplaySrc)
    (h : d.length < maxCacheSize) : evictIfFull d = d := by
  unfold evictIfFull
  rw [if_neg (by omega)]

theorem contains_filter_ne (l : List String) (k : String) :
    (l.filter (fun x => x ≠ k)).contains k = false := by
  induction l with
  | nil => simp
  | cons x t ih =>
    by_cases h : x = k <;> simp [List.filter_cons, h, ih]
    exact fun hc => h hc.symm

end DictLemmas

/-! ### Structural lemmas about the pipeline operations -/

theorem paintSetup_fields (s : DelegateState) (item : GalleryItem) :
    (paintSetup s item).pixmapCache = s.pixmapCache ∧
    (paintSetup s item).imageCache = s.imageCache ∧
    (paintSetup s item).itemSize = s.itemSize := by
  cases h : dlookup s.imageCache (getImageCacheKey item s.itemSize) with
  | some cached => simp [paintSetup, h]
  | none =>
    cases hd : item.decoration with
    | none => simp [paintSetup, h, hd]
    | some image =>
      simp only [paintSetup, h, hd]
      split <;> simp

theorem paintSetup_pending_cases (s : DelegateState) (item : GalleryItem) :
    ((paintSetup s item).pendingLoads = s.pendingLoads ∧
      (paintSetup s item).dispatchLog = s.dispatchLog) ∨
    ((paintSetup s item).pendingLoads =
        s.pendingLoads ++ [getImageCacheKey item s.itemSize] ∧
      s.pendingLoads.contains (getImageCacheKey item s.itemSize) = false ∧
      ∃ image, item.decoration = some image ∧
        (paintSetup s item).dispatchLog =
          s.dispatchLog ++ [(getImageCacheKey item s.itemSize, image)]) := by
  cases h : dlookup s.imageCache (getImageCacheKey item s.itemSize) with
  | some cached => left; simp [paintSetup, h]
  | none =>
    cases hd : item.decoration with
    | none => left; simp [paintSetup, h, hd]
    | some image =>
      simp only [paintSetup, h, hd]
      split
      · rename_i hcond
        rcases Bool.and_eq_true_iff.mp hcond with ⟨-, h2⟩
        right
        exact ⟨rfl, by simpa using h2, image, rfl, rfl⟩
      · left; exact ⟨rfl, rfl⟩

theorem paint_of_hit (s : DelegateState) (item : GalleryItem) (selected : Bool)
    (pm : DisplaySrc)
    (h : dlookup s.pixmapCache (getCacheKey item selected s.itemSize) = some pm) :
    paint s item selected = (s, pm) := by
  unfold paint
  simp only [h]

theorem paint_of_miss (s : DelegateState) (item : GalleryItem) (selected : Bool)
    (h : dlookup s.pixmapCache (getCacheKey item selected s.itemSize) = none) :
    paint s item selected =
      ({ paintSetup s item with
          pixmapCache := dinsert (evictIfFull (paintSetup s item).pixmapCache)
            (getCacheKey item selected s.itemSize)
            (getDisplayImage (paintSetup s item).widget) },
        getDisplayImage (paintSetup s item).widget) := by
  unfold paint
  simp only [h]

/-! ### The bounded-cache invariant -/

/-- Invariant carried by every reachable delegate state: both cache dicts
have pairwise-distinct keys and respect their configured bounds. -/
def CacheInv (s : DelegateState) : Prop :=
  NodupKeys s.pixmapCache ∧ NodupKeys s.imageCache ∧
  s.pixmapCache.length ≤ maxCacheSize ∧ s.imageCache.length ≤ maxImageCacheSize

theorem cacheInv_init : CacheInv initDelegate := by
  refine ⟨?_, ?_, ?_, ?_⟩ <;> simp [initDelegate, NodupKeys, dkeys, maxCacheSize, maxImageCacheSize]

theorem paint_miss_pixmapCache (s : DelegateState) (item : GalleryItem)
    (selected : Bool)
    (h : dlookup s.pixmapCache (getCacheKey item selected s.itemSize) = none) :
    (paint s item selected).1.pixmapCache =
      dinsert (evictIfFull s.pixmapCache) (getCacheKey item selected s.itemSize)
        (getDisplayImage (paintSetup s item).widget) := by
  rw [paint_of_miss s item selected h]
  obtain ⟨hpc, -, -⟩ := paintSetup_fields s item
  simp [hpc]

theorem paint_imageCache (s : DelegateState) (item : GalleryItem)
    (selected : Bool) : (paint s item selected).1.imageCache = s.imageCache := by
  cases hp : dlookup s.pixmapCache (getCacheKey item selected s.itemSize) with
  | some pm => rw [paint_of_hit s item selected pm hp]
  | none =>
    rw [paint_of_miss s item selected hp]
    obtain ⟨-, hic, -⟩ := paintSetup_fields s item
    simpa using hic

theorem paint_itemSize (s : DelegateState) (item : GalleryItem)
    (selected : Bool) : (paint s item selected).1.itemSize = s.itemSize := by
  cases hp : dlookup s.pixmapCache (getCacheKey item selected s.itemSize) with
  | some pm => rw [paint_of_hit s item selected pm hp]
  | none =>
    rw [paint_of_miss s item selected hp]
    obtain ⟨-, -, his⟩ := paintSetup_fields s item
    simpa using his

theorem cacheInv_paint (s : DelegateState) (item : GalleryItem) (selected : Bool)
    (h : CacheInv s) : CacheInv (paint s item selected).1 := by
  obtain ⟨hn1, hn2, hl1, hl2⟩ := h
  cases hp : dlookup s.pixmapCache (getCacheKey item selected s.itemSize) with
  | some pm =>
    rw [paint_of_hit s item selected pm hp]
    exact ⟨hn1, hn2, hl1, hl2⟩
  | none =>
    have hpm := paint_miss_pixmapCache s item selected hp
    have him := paint_imageCache s item selected
    refine ⟨?_, by rw [him]; exact hn2, ?_, by rw [him]; exact hl2⟩
    · rw [hpm]
      refine nodupKeys_dinsert _ _ _ ?_
      by_cases hfull : maxCacheSize ≤ s.pixmapCache.length
      · rw [evictIfFull_eq_drop _ hn1 hfull]
        exact nodupKeys_drop _ _ hn1
      · rw [evictIfFull_eq_self _ (by omega)]
        exact hn1
    · rw [hpm]
      have hle := dinsert_length_le (evictIfFull s.pixmapCache)
        (getCacheKey item selected s.itemSize)
        (getDisplayImage (paintSetup s item).widget)
      by_cases hfull : maxCacheSize ≤ s.pixmapCache.length
      · rw [evictIfFull_eq_drop _ hn1 hfull] at hle ⊢
        simp only [List.length_drop] at hle
        unfold maxCacheSize at hl1 hfull ⊢
        omega
      · rw [evictIfFull_eq_self _ (by omega)] at hle ⊢
        unfold maxCacheSize at hfull ⊢
        omega

theorem cacheInv_onImageReady (s : DelegateState) (cacheKey : String)
    (processed : QImage) (h : CacheInv s) :
    CacheInv (onImageReady s cacheKey processed) := by
  obtain ⟨hn1, hn2, hl1, hl2⟩ := h
  unfold onImageReady
  refine ⟨nodupKeys_filter _ _ hn1, ?_, ?_, ?_⟩
  · by_cases hfull : s.imageCache.length < maxImageCacheSize
    · simp only [if_pos hfull]
      exact nodupKeys_dinsert _ _ _ hn2
    · simp only [if_neg hfull]
      exact hn2
  · exact le_trans (List.length_filter_le _ _) hl1
  · by_cases hfull : s.imageCache.length < maxImageCacheSize
    · simp only [if_pos hfull]
      have := dinsert_length_le s.imageCache cacheKey processed
      omega
    · simp only [if_neg hfull]
      exact hl2

theorem cacheInv_setItemSize (s : DelegateState) (size : QSize)
    (_h : CacheInv s) : CacheInv (setItemSize s size) := by
  refine ⟨?_, ?_, ?_, ?_⟩ <;> simp [setItemSize, NodupKeys, dkeys]

theorem cacheInv_clearCaches (s : DelegateState) (_h : CacheInv s) :
    CacheInv (clearCaches s) := by
  refine ⟨?_, ?_, ?_, ?_⟩ <;> simp [clearCaches, NodupKeys, dkeys]

theorem cacheInv_resizeEvent (s : DelegateState) (oldWidth newWidth : Int)
    (newGridSize : QSize) (h : CacheInv s) :
    CacheInv (resizeEvent s oldWidth newWidth newGridSize) := by
  unfold resizeEvent
  by_cases hw : 50 < (newWidth - oldWidth).natAbs
  · simp only [if_pos hw]
    by_cases hg : s.itemSize ≠ newGridSize
    · simp only [if_pos hg]
      exact cacheInv_clearCaches _ (cacheInv_setItemSize _ _ h)
    · simp only [if_neg hg]
      exact cacheInv_clearCaches _ h
  · simp only [if_neg hw]
    exact h

theorem cacheInv_applyOp (s : DelegateState) (op : GalleryOp) (h : CacheInv s) :
    CacheInv (applyOp s op) := by
  cases op with
  | paintReq item selected => exact cacheInv_paint s item selected h
  | complete cacheKey img => exact cacheInv_onImageReady s cacheKey img h
  | resize ow nw g => exact cacheInv_resizeEvent s ow nw g h
  | setSize size => exact cacheInv_setItemSize s size h
  | clearAll => exact cacheInv_clearCaches s h

theorem cacheInv_runOps (ops : List GalleryOp) (s : DelegateState)
    (h : CacheInv s) : CacheInv (runOps s ops) := by
  induction ops generalizing s with
  | nil => exact h
  | cons op rest ih => exact ih (applyOp s op) (cacheInv_applyOp s op h)

/-! ### Deduplication lemmas -/

theorem paint_miss_pendingLoads (s : DelegateState) (item : GalleryItem)
    (selected : Bool)
    (h : dlookup s.pixmapCache (getCacheKey item selected s.itemSize) = none) :
    (paint s item selected).1.pendingLoads = (paintSetup s item).pendingLoads := by
  rw [paint_of_miss s item selected h]

theorem paint_miss_dispatchLog (s : DelegateState) (item : GalleryItem)
    (selected : Bool)
    (h : dlookup s.pixmapCache (getCacheKey item selected s.itemSize) = none) :
    (paint s item selected).1.dispatchLog = (paintSetup s item).dispatchLog := by
  rw [paint_of_miss s item selected h]

theorem paint_pending_mono (s : DelegateState) (item : GalleryItem)
    (selected : Bool) (K : String) (h : s.pendingLoads.contains K = true) :
    (paint s item selected).1.pendingLoads.contains K = true := by
  cases hp : dlookup s.pixmapCache (getCacheKey item selected s.itemSize) with
  | some pm => rw [paint_of_hit s item selected pm hp]; exact h
  | none =>
    rw [paint_miss_pendingLoads s item selected hp]
    rcases paintSetup_pending_cases s item with ⟨hp1, -⟩ | ⟨hp1, -, -⟩ <;> rw [hp1]
    · exact h
    · have hm : K ∈ s.pendingLoads := by simpa using h
      simp [List.mem_append, hm]

theorem paint_dispatchCount_of_pending (s : DelegateState) (item : GalleryItem)
    (selected : Bool) (K : String) (h : s.pendingLoads.contains K = true) :
    dispatchCount (paint s item selected).1 K = dispatchCount s K := by
  cases hp : dlookup s.pixmapCache (getCacheKey item selected s.itemSize) with
  | some pm => rw [paint_of_hit s item selected pm hp]
  | none =>
    unfold dispatchCount
    rw [paint_miss_dispatchLog s item selected hp]
    rcases paintSetup_pending_cases s item with ⟨-, hl⟩ | ⟨-, hfalse, image, -, hl⟩ <;>
      rw [hl]
    have hne : getImageCacheKey item s.itemSize ≠ K := by
      intro he
      rw [he] at hfalse
      rw [h] at hfalse
      exact Bool.noConfusion hfalse
    rw [List.filter_append]
    simp [hne]

/-- Composite of several paint requests, applied left to right. -/
def runPaints (s : DelegateState) (reqs : List (GalleryItem × Bool)) :
    DelegateState :=
  reqs.foldl (fun st r => (paint st r.1 r.2).1) s

theorem runPaints_pending_dispatchCount (reqs : List (GalleryItem × Bool))
    (s : DelegateState) (K : String) (h : s.pendingLoads.contains K = true) :
    (runPaints s reqs).pendingLoads.contains K = true ∧
    dispatchCount (runPaints s reqs) K = dispatchCount s K := by
  induction reqs generalizing s with
  | nil => exact ⟨h, rfl⟩
  | cons r rest ih =>
    rw [show runPaints s (r :: rest) = runPaints (paint s r.1 r.2).1 rest from rfl]
    have h1 := paint_pending_mono s r.1 r.2 K h
    have h2 := paint_dispatchCount_of_pending s r.1 r.2 K h
    obtain ⟨ha, hb⟩ := ih (paint s r.1 r.2).1 h1
    exact ⟨ha, by rw [hb, h2]⟩

theorem getDisplayImage_setLoadingState_true (w : WidgetState) :
    getDisplayImage (setLoadingState w true) = .loadingPlaceholder := by
  simp [getDisplayImage, setLoadingState]

theorem paint_dispatches (s : DelegateState) (item : GalleryItem)
    (selected : Bool) (image : QImage)
    (hmiss : dlookup s.pixmapCache (getCacheKey item selected s.itemSize) = none)
    (himg : item.decoration = some image) (hnn : image.isNull = false)
    (hic : dlookup s.imageCache (getImageCacheKey item s.itemSize) = none)
    (hp : s.pendingLoads.contains (getImageCacheKey item s.itemSize) = false) :
    (paint s item selected).1.dispatchLog =
      s.dispatchLog ++ [(getImageCacheKey item s.itemSize, image)] ∧
    (paint s item selected).1.pendingLoads =
      s.pendingLoads ++ [getImageCacheKey item s.itemSize] ∧
    (paint s item selected).2 = .loadingPlaceholder := by
  have hsetup : paintSetup s item =
      { s with
        widget := setLoadingState (setImage s.widget (some image)) true,
        pendingLoads := s.pendingLoads ++ [getImageCacheKey item s.itemSize],
        dispatchLog := s.dispatchLog ++ [(getImageCacheKey item s.itemSize, image)] } := by
    simp only [paintSetup, hic, himg]
    rw [if_pos (by simp [hnn]; simpa using hp)]
  refine ⟨?_, ?_, ?_⟩
  · rw [paint_miss_dispatchLog s item selected hmiss, hsetup]
  · rw [paint_miss_pendingLoads s item selected hmiss, hsetup]
  · rw [paint_of_miss s item selected hmiss]
    simp only [hsetup]
    exact getDisplayImage_setLoadingState_true _

/-! ### Payload-selection and completion-handler lemmas -/

theorem getDisplayImage_after_set (w : WidgetState) (img : Option QImage)
    (hsc : w.scaledCache = none) :
    getDisplayImage (setLoadingState (setImage w img) false) =
      match img with
      | none => .errorPlaceholder
      | some i => if i.isNull then .errorPlaceholder else .fromImage i := by
  unfold setImage
  by_cases hch : w.image ≠ img
  · rw [if_pos hch]
    cases img with
    | none => simp [getDisplayImage, setLoadingState]
    | some i => by_cases hn : i.isNull <;> simp [getDisplayImage, setLoadingState, hn]
  · rw [if_neg hch]
    have heq : w.image = img := not_ne_iff.mp hch
    cases img with
    | none => simp [getDisplayImage, setLoadingState, hsc, heq]
    | some i =>
      by_cases hn : i.isNull <;>
        simp [getDisplayImage, setLoadingState, hsc, heq, hn]

theorem paint_payload_of_imageCache_hit (s : DelegateState) (item : GalleryItem)
    (selected : Bool) (cached : QImage)
    (hmiss : dlookup s.pixmapCache (getCacheKey item selected s.itemSize) = none)
    (hic : dlookup s.imageCache (getImageCacheKey item s.itemSize) = some cached)
    (hsc : s.widget.scaledCache = none) :
    (paint s item selected).2 =
      (if cached.isNull then .errorPlaceholder else .fromImage cached) := by
  rw [paint_of_miss s item selected hmiss]
  simp only [paintSetup, hic]
  rw [getDisplayImage_after_set s.widget (some cached) hsc]

theorem paint_payload_of_pending (s : DelegateState) (item : GalleryItem)
    (selected : Bool) (image : QImage)
    (hmiss : dlookup s.pixmapCache (getCacheKey item selected s.itemSize) = none)
    (hic : dlookup s.imageCache (getImageCacheKey item s.itemSize) = none)
    (himg : item.decoration = some image)
    (hp : s.pendingLoads.contains (getImageCacheKey item s.itemSize) = true)
    (hsc : s.widget.scaledCache = none) :
    (paint s item selected).2 =
      (if image.isNull then .errorPlaceholder else .fromImage image) := by
  rw [paint_of_miss s item selected hmiss]
  simp only [paintSetup, hic, himg]
  have hmem : getImageCacheKey item s.itemSize ∈ s.pendingLoads := by simpa using hp
  rw [if_neg (by simp [hmem])]
  rw [getDisplayImage_after_set s.widget (some image) hsc]

theorem paint_payload_of_no_image (s : DelegateState) (item : GalleryItem)
    (selected : Bool)
    (hmiss : dlookup s.pixmapCache (getCacheKey item selected s.itemSize) = none)
    (hic : dlookup s.imageCache (getImageCacheKey item s.itemSize) = none)
    (himg : item.decoration = none)
    (hsc : s.widget.scaledCache = none) :
    (paint s item selected).2 = .errorPlaceholder := by
  rw [paint_of_miss s item selected hmiss]
  simp only [paintSetup, hic, himg]
  rw [getDisplayImage_after_set s.widget none hsc]

theorem paint_payload_of_null_image (s : DelegateState) (item : GalleryItem)
    (selected : Bool) (image : QImage)
    (hmiss : dlookup s.pixmapCache (getCacheKey item selected s.itemSize) = none)
    (hic : dlookup s.imageCache (getImageCacheKey item s.itemSize) = none)
    (himg : item.decoration = some image) (hnull : image.isNull = true)
    (hsc : s.widget.scaledCache = none) :
    (paint s item selected).2 = .errorPlaceholder := by
  rw [paint_of_miss s item selected hmiss]
  simp only [paintSetup, hic, himg]
  rw [if_neg (by simp [hnull])]
  rw [getDisplayImage_after_set s.widget (some image) hsc]
  simp [hnull]

theorem onImageReady_pending_cleared (s : DelegateState) (cacheKey : String)
    (processed : QImage) :
    (onImageReady s cacheKey processed).pendingLoads.contains cacheKey = false := by
  unfold onImageReady
  exact contains_filter_ne s.pendingLoads cacheKey

theorem onImageReady_imageCache_unchanged_of_full (s : DelegateState)
    (cacheKey : String) (processed : QImage)
    (hfull : maxImageCacheSize ≤ s.imageCache.length) :
    (onImageReady s cacheKey processed).imageCache = s.imageCache := by
  unfold onImageReady
  simp only [if_neg (Nat.not_lt.mpr hfull)]

/-! ### Additional projection lemma used by the eviction analysis -/

theorem paint_miss_payload (s : DelegateState) (item : GalleryItem)
    (selected : Bool)
    (h : dlookup s.pixmapCache (getCacheKey item selected s.itemSize) = none) :
    (paint s item selected).2 = getDisplayImage (paintSetup s item).widget := by
  rw [paint_of_miss s item selected h]

/-! ### Concrete scenario instances -/

/-- A valid decoded raw image with `cacheKey()` 5. -/
def c1Image : QImage := { isNull := false, fp := 5, tag := .original }

/-- Gallery row named `n` of type `t` carrying `c1Image`. -/
def c1Item : GalleryItem :=
  { name := some "n", itemType := some "t", decoration := some c1Image }

/-- State after the first paint request for `c1Item`: the loading-placeholder
payload is cached and a scale job for `img_5_450_650` is pending. -/
def c1AfterFirstPaint : DelegateState := (paint initDelegate c1Item false).1

/-- The completion the worker produces for the dispatched job (a successful
scale of `c1Image` to the 450x650 item size). -/
def c1Completion : String × QImage :=
  processImage qtScaled (getImageCacheKey c1Item initDelegate.itemSize) c1Image
    { w := 450, h := 650 }

/-- The scaled image carried by that completion. -/
def c1Scaled : QImage :=
  { isNull := false, fp := 5, tag := .scaledTo { w := 450, h := 650 } }

/-- State after `_onImageReady` handles the successful completion. -/
def c1AfterCompletion : DelegateState :=
  onImageReady c1AfterFirstPaint c1Completion.1 c1Completion.2

/-- A valid raw image for the C2 witness scenario. -/
def c2Image : QImage := { isNull := false, fp := 3, tag := .original }

/-- Gallery row for the C2 witness scenario. -/
def c2Item : GalleryItem :=
  { name := some "w", itemType := some "u", decoration := some c2Image }

/-- Gallery row for the C3 witness scenario. -/
def c3Item : GalleryItem :=
  { name := some "r", itemType := some "s", decoration :=
      some { isNull := false, fp := 4, tag := .original } }

/-- A populated state for the C3 witness: one cached pixmap, one pending
load. -/
def c3State : DelegateState := (paint initDelegate c3Item false).1

/-- A scale function that always fails, modelling an exception raised inside
`QImage.scaled` and caught by `processImage`'s `except` branch. -/
def failingScale : QImage → QSize → Bool → Option QImage := fun _ _ _ => none

/-- A valid raw image for the C5 witness scenario. -/
def c5Image : QImage := { isNull := false, fp := 9, tag := .original }

/-- A state whose in-flight tracker holds the C5 witness key. -/
def c5State : DelegateState :=
  { initDelegate with pendingLoads := ["img_9_450_650"] }

/-- A valid raw image for the C6 scenario. -/
def c6Image : QImage := { isNull := false, fp := 8, tag := .original }

/-- Gallery row for the C6 scenario. -/
def c6Item : GalleryItem :=
  { name := some "a", itemType := some "b", decoration := some c6Image }

/-- 201 pairwise-distinct one-character item names for the C7 scenario. -/
def c7Name (i : Nat) : String := String.mk [Char.ofNat (49 + i)]

/-- The i-th gallery row of the C7 scenario (no decoration, so each paint
takes the raw/error fallback branch and dispatches nothing). -/
def c7Item (i : Nat) : GalleryItem :=
  { name := some (c7Name i), itemType := none, decoration := none }

/-- A pixmap cache filled to its 200-entry bound, keys in insertion order
`c7Item 0 .. c7Item 199`. -/
def c7FullCache : PyDict DisplaySrc :=
  (List.range 200).map
    (fun i => (getCacheKey (c7Item i) false { w := 450, h := 650 },
      DisplaySrc.errorPlaceholder))

/-- Delegate state whose pixmap cache is at its configured bound. -/
def c7State : DelegateState := { initDelegate with pixmapCache := c7FullCache }

/-- Image with `cacheKey()` 0. -/
def c8ImageA : QImage := { isNull := false, fp := 0, tag := .original }

/-- A different image whose `cacheKey()` is the CPython hash modulus
2^61 - 1, which hashes to the same fingerprint as `c8ImageA`. -/
def c8ImageB : QImage :=
  { isNull := false, fp := 2305843009213693951, tag := .original }

/-- Gallery row carrying `c8ImageA`. -/
def c8ItemA : GalleryItem :=
  { name := some "m", itemType := some "ty", decoration := some c8ImageA }

/-- The same row after its raw image changed to `c8ImageB`. -/
def c8ItemB : GalleryItem :=
  { name := some "m", itemType := some "ty", decoration := some c8ImageB }

/-- Image with `cacheKey()` 1, for the C8 witness. -/
def c8WImageA : QImage := { isNull := false, fp := 1, tag := .original }

/-- Image with `cacheKey()` 2^61, congruent to 1 modulo 2^61 - 1. -/
def c8WImageB : QImage :=
  { isNull := false, fp := 2305843009213693952, tag := .original }

/-- The image-cache key of the C9 witness completion. -/
def c9Key : String := "img_7_450_650"

/-- A processed-image cache filled to its 100-entry bound with keys other
than `c9Key`. -/
def c9FullImageCache : PyDict QImage :=
  (List.range 100).map
    (fun i => (String.mk [Char.ofNat (49 + i)],
      { isNull := false, fp := i, tag := .original }))

/-- Delegate state whose processed-image cache is full and whose in-flight
tracker holds `c9Key`. -/
def c9State : DelegateState :=
  { initDelegate with imageCache := c9FullImageCache, pendingLoads := [c9Key] }

/-- The scaled image delivered for `c9Key`. -/
def c9Processed : QImage :=
  { isNull := false, fp := 7, tag := .scaledTo { w := 450, h := 650 } }

/-- Image shared by the two aliasing C10 rows. -/
def c10Image : QImage := { isNull := false, fp := 7, tag := .original }

/-- Row named `a_b` of type `c`. -/
def c10ItemA : GalleryItem :=
  { name := some "a_b", itemType := some "c", decoration := some c10Image }

/-- Row named `a` of type `b_c`. -/
def c10ItemB : GalleryItem :=
  { name := some "a", itemType := some "b_c", decoration := some c10Image }

/-! ### Claim theorems -/

set_option maxRecDepth 100000

/-- C1 (code bug): after the successful scale completion for key
`img_5_450_650`, the processed image is stored, but the dependent
rendered-pixmap entry `n_t_5_False_450_650` is NOT invalidated (the
substring `5_450_650` searched by `_onImageReady` never occurs in it, the
selection flag sitting between the fingerprint and the size), so the next
paint request for the same item is a pixmap-cache hit that returns the
stale loading-placeholder payload instead of one built from the processed
image — contradicting the code's own comment that dependent entries are
cleared to force a re-render. -/
theorem C1_completion_leaves_stale_pixmap :
    c1Completion = (getImageCacheKey c1Item c1AfterCompletion.itemSize, c1Scaled) ∧
    dlookup c1AfterCompletion.imageCache c1Completion.1 = some c1Scaled ∧
    dmem c1AfterCompletion.pixmapCache
      (getCacheKey c1Item false c1AfterCompletion.itemSize) = true ∧
    paint c1AfterCompletion c1Item false =
      (c1AfterCompletion, DisplaySrc.loadingPlaceholder) ∧
    DisplaySrc.loadingPlaceholder ≠ DisplaySrc.fromImage c1Scaled := by
  decide

/-- C2: starting from a state in which key K (the image-cache key of
`item0`) is not cached, not pending and was never dispatched, a first
payload request that misses the pixmap cache dispatches exactly one scale
job for K, and any number of further paint requests issued before any
completion arrives (all paints, for any items) leave the dispatch count
for K at exactly one. -/
theorem C2_single_dispatch_per_key (s : DelegateState) (item0 : GalleryItem)
    (image : QImage) (sel0 : Bool) (rest : List (GalleryItem × Bool))
    (himg : item0.decoration = some image) (hnn : image.isNull = false)
    (hmiss : dlookup s.pixmapCache (getCacheKey item0 sel0 s.itemSize) = none)
    (hic : dlookup s.imageCache (getImageCacheKey item0 s.itemSize) = none)
    (hp : s.pendingLoads.contains (getImageCacheKey item0 s.itemSize) = false)
    (hc0 : dispatchCount s (getImageCacheKey item0 s.itemSize) = 0) :
    dispatchCount (runPaints (paint s item0 sel0).1 rest)
      (getImageCacheKey item0 s.itemSize) = 1 := by
  obtain ⟨hlog, hpend, -⟩ :=
    paint_dispatches s item0 sel0 image hmiss himg hnn hic hp
  have h1 : dispatchCount (paint s item0 sel0).1
      (getImageCacheKey item0 s.itemSize) = 1 := by
    unfold dispatchCount at hc0 ⊢
    rw [hlog, List.filter_append, List.length_append, hc0]
    simp
  have h2 : (paint s item0 sel0).1.pendingLoads.contains
      (getImageCacheKey item0 s.itemSize) = true := by
    rw [hpend]
    simp
  obtain ⟨-, hcnt⟩ :=
    runPaints_pending_dispatchCount rest (paint s item0 sel0).1
      (getImageCacheKey item0 s.itemSize) h2
  rw [hcnt, h1]

/-- Witness for C2: from the initial state, one request for `c2Item`
followed by two more requests deriving the same key dispatches exactly one
job. -/
theorem C2_single_dispatch_per_key_witness :
    dlookup initDelegate.pixmapCache
      (getCacheKey c2Item false initDelegate.itemSize) = none ∧
    initDelegate.pendingLoads.contains
      (getImageCacheKey c2Item initDelegate.itemSize) = false ∧
    dispatchCount (runPaints (paint initDelegate c2Item false).1
      [(c2Item, false), (c2Item, true)])
      (getImageCacheKey c2Item initDelegate.itemSize) = 1 :=
  ⟨by decide, by decide,
    C2_single_dispatch_per_key initDelegate c2Item c2Image false
      [(c2Item, false), (c2Item, true)] rfl rfl (by decide) (by decide)
      (by decide) (by decide)⟩

/-- C3: a resize event whose width change exceeds the 50-pixel guard clears
the rendered-pixmap cache, the processed-image cache and the in-flight
tracker, so every subsequent payload request at the new size misses both
caches and is forced to recompute. -/
theorem C3_resize_clears_state (s : DelegateState) (oldWidth newWidth : Int)
    (newGridSize : QSize) (hw : 50 < (newWidth - oldWidth).natAbs) :
    (resizeEvent s oldWidth newWidth newGridSize).pixmapCache = [] ∧
    (resizeEvent s oldWidth newWidth newGridSize).imageCache = [] ∧
    (resizeEvent s oldWidth newWidth newGridSize).pendingLoads = [] ∧
    ∀ item selected,
      dlookup (resizeEvent s oldWidth newWidth newGridSize).pixmapCache
        (getCacheKey item selected
          (resizeEvent s oldWidth newWidth newGridSize).itemSize) = none ∧
      dlookup (resizeEvent s oldWidth newWidth newGridSize).imageCache
        (getImageCacheKey item
          (resizeEvent s oldWidth newWidth newGridSize).itemSize) = none := by
  unfold resizeEvent
  rw [if_pos hw]
  by_cases hg : s.itemSize ≠ newGridSize
  · rw [if_pos hg]
    exact ⟨rfl, rfl, rfl, fun item selected => ⟨rfl, rfl⟩⟩
  · rw [if_neg hg]
    exact ⟨rfl, rfl, rfl, fun item selected => ⟨rfl, rfl⟩⟩

/-- Witness for C3: resizing a populated state (one cached pixmap, one
pending load) from width 300 to 900 empties all three collections. -/
theorem C3_resize_clears_state_witness :
    50 < ((900 : Int) - 300).natAbs ∧
    c3State.pixmapCache ≠ [] ∧
    c3State.pendingLoads ≠ [] ∧
    (resizeEvent c3State 300 900 { w := 300, h := 450 }).pixmapCache = [] ∧
    (resizeEvent c3State 300 900 { w := 300, h := 450 }).imageCache = [] ∧
    (resizeEvent c3State 300 900 { w := 300, h := 450 }).pendingLoads = [] :=
  ⟨by decide, by decide, by decide,
    (C3_resize_clears_state c3State 300 900 { w := 300, h := 450 } (by decide)).1,
    (C3_resize_clears_state c3State 300 900 { w := 300, h := 450 } (by decide)).2.1,
    (C3_resize_clears_state c3State 300 900 { w := 300, h := 450 } (by decide)).2.2.1⟩

/-- C4: after any sequence of paint requests, worker completions, resizes,
item-size changes and cache clears starting from the initial state, the
rendered-pixmap cache holds at most 200 entries and the processed-image
cache at most 100. -/
theorem C4_cache_bounds (ops : List GalleryOp) :
    (runOps initDelegate ops).pixmapCache.length ≤ maxCacheSize ∧
    (runOps initDelegate ops).imageCache.length ≤ maxImageCacheSize := by
  have h := cacheInv_runOps ops initDelegate cacheInv_init
  exact ⟨h.2.2.1, h.2.2.2⟩

/-- C5: the worker emits exactly one completion per job (`processImage` is
a total function returning a single `(cache_key, image)` message), carrying
the original key; a null input or a failed scale yields the original
unscaled image rather than dropping the job; and delivering the completion
to `_onImageReady` removes the key from the in-flight tracker on every
path. -/
theorem C5_worker_always_completes
    (scaleFn : QImage → QSize → Bool → Option QImage) (cacheKey : String)
    (image : QImage) (targetSize : QSize) (s : DelegateState) :
    (processImage scaleFn cacheKey image targetSize).1 = cacheKey ∧
    (image.isNull = true →
      (processImage scaleFn cacheKey image targetSize).2 = image) ∧
    (scaleFn image targetSize (400 < targetSize.w || 400 < targetSize.h) = none →
      (processImage scaleFn cacheKey image targetSize).2 = image) ∧
    (onImageReady s cacheKey
        (processImage scaleFn cacheKey image targetSize).2).pendingLoads.contains
      cacheKey = false := by
  refine ⟨?_, ?_, ?_, onImageReady_pending_cleared s cacheKey _⟩
  · unfold processImage
    by_cases hn : image.isNull = true
    · rw [if_pos hn]
    · rw [if_neg hn]
      cases h : scaleFn image targetSize (400 < targetSize.w || 400 < targetSize.h) <;>
        simp [h]
  · intro hn
    unfold processImage
    rw [if_pos hn]
  · intro hfail
    unfold processImage
    by_cases hn : image.isNull = true
    · rw [if_pos hn]
    · rw [if_neg hn]
      simp [hfail]

/-- Witness for C5: a failing scale of a valid image still produces one
completion carrying the original image, and handling it clears the pending
entry. -/
theorem C5_worker_always_completes_witness :
    processImage failingScale "img_9_450_650" c5Image { w := 450, h := 650 } =
      ("img_9_450_650", c5Image) ∧
    c5State.pendingLoads.contains "img_9_450_650" = true ∧
    (onImageReady c5State "img_9_450_650"
        (processImage failingScale "img_9_450_650" c5Image
          { w := 450, h := 650 }).2).pendingLoads.contains
      "img_9_450_650" = false :=
  ⟨by decide, by decide,
    (C5_worker_always_completes failingScale "img_9_450_650" c5Image
      { w := 450, h := 650 } c5State).2.2.2⟩

/-- C6 counterexample: for a first request with a valid raw image, an
image-cache miss and no job in flight, the payload is built from the
loading placeholder, not from the raw unscaled image as the claim states
(the dispatching branch sets the widget's loading state before
rendering). -/
theorem C6_counterexample_first_request :
    dlookup initDelegate.imageCache
      (getImageCacheKey c6Item initDelegate.itemSize) = none ∧
    initDelegate.pendingLoads = [] ∧
    c6Image.isNull = false ∧
    (paint initDelegate c6Item false).2 = DisplaySrc.loadingPlaceholder ∧
    DisplaySrc.loadingPlaceholder ≠ DisplaySrc.fromImage c6Image := by
  decide

/-- C6 amended: on a pixmap-cache miss (with the widget-level scaled cache
empty, as it always is in the delegate flow), the payload is selected as
follows: the cached processed image on an image-cache hit; the loading
placeholder for a valid image with no job in flight — the request that also
dispatches the scale job; the raw unscaled image for a valid image whose
job is already in flight; the error placeholder when the raw image is
absent or null. -/
theorem C6_amended_payload_selection (s : DelegateState) (item : GalleryItem)
    (selected : Bool)
    (hmiss : dlookup s.pixmapCache (getCacheKey item selected s.itemSize) = none)
    (hsc : s.widget.scaledCache = none) :
    (∀ cached, dlookup s.imageCache (getImageCacheKey item s.itemSize) = some cached →
      cached.isNull = false → (paint s item selected).2 = .fromImage cached) ∧
    (dlookup s.imageCache (getImageCacheKey item s.itemSize) = none →
      ∀ image, item.decoration = some image → image.isNull = false →
        (s.pendingLoads.contains (getImageCacheKey item s.itemSize) = false →
          (paint s item selected).2 = .loadingPlaceholder ∧
          (paint s item selected).1.dispatchLog =
            s.dispatchLog ++ [(getImageCacheKey item s.itemSize, image)]) ∧
        (s.pendingLoads.contains (getImageCacheKey item s.itemSize) = true →
          (paint s item selected).2 = .fromImage image)) ∧
    (dlookup s.imageCache (getImageCacheKey item s.itemSize) = none →
      (item.decoration = none ∨
        ∃ image, item.decoration = some image ∧ image.isNull = true) →
      (paint s item selected).2 = .errorPlaceholder) := by
  refine ⟨?_, ?_, ?_⟩
  · intro cached hic hcn
    rw [paint_payload_of_imageCache_hit s item selected cached hmiss hic hsc]
    simp [hcn]
  · intro hic image himg hnn
    constructor
    · intro hp
      obtain ⟨hlog, -, hpay⟩ :=
        paint_dispatches s item selected image hmiss himg hnn hic hp
      exact ⟨hpay, hlog⟩
    · intro hp
      rw [paint_payload_of_pending s item selected image hmiss hic himg hp hsc]
      simp [hnn]
  · intro hic hcase
    rcases hcase with hnone | ⟨image, himg, hnull⟩
    · exact paint_payload_of_no_image s item selected hmiss hic hnone hsc
    · exact paint_payload_of_null_image s item selected image hmiss hic himg hnull hsc

/-- Witness for the amended C6: the first request for `c6Item` from the
initial state yields the loading-placeholder payload. -/
theorem C6_amended_payload_selection_witness :
    dlookup initDelegate.pixmapCache
      (getCacheKey c6Item false initDelegate.itemSize) = none ∧
    initDelegate.widget.scaledCache = none ∧
    (paint initDelegate c6Item false).2 = DisplaySrc.loadingPlaceholder :=
  ⟨by decide, by decide,
    (((C6_amended_payload_selection initDelegate c6Item false (by decide)
        (by decide)).2.1 (by decide) c6Image rfl rfl).1 (by decide)).1⟩

/-- C7 counterexample: with the pixmap cache at its 200-entry bound, a read
of the very first entry (a cache hit) leaves the cache unchanged — reads do
not refresh recency — and the next insertion then evicts that just-read
(most recently used) entry, because eviction removes the first 20 entries
in insertion order, not the least-recently-used ones. -/
theorem C7_counterexample_read_entry_evicted :
    paint c7State (c7Item 0) false = (c7State, DisplaySrc.errorPlaceholder) ∧
    c7State.pixmapCache.length = 200 ∧
    dmem c7State.pixmapCache (getCacheKey (c7Item 0) false c7State.itemSize) = true ∧
    dmem (paint c7State (c7Item 200) false).1.pixmapCache
      (getCacheKey (c7Item 0) false c7State.itemSize) = false := by
  decide

/-- C7 amended: a pixmap-cache hit returns the cached payload and leaves the
state (hence recency) untouched; an insertion into a cache at the 200-entry
bound removes exactly the first 20 entries in insertion order in one pass
and then appends the new entry. -/
theorem C7_amended_batch_eviction (s : DelegateState) (item : GalleryItem)
    (selected : Bool) (hnodup : NodupKeys s.pixmapCache) :
    (∀ pm, dlookup s.pixmapCache (getCacheKey item selected s.itemSize) = some pm →
      paint s item selected = (s, pm)) ∧
    (dlookup s.pixmapCache (getCacheKey item selected s.itemSize) = none →
      maxCacheSize ≤ s.pixmapCache.length →
      (paint s item selected).1.pixmapCache =
        s.pixmapCache.drop 20 ++
          [(getCacheKey item selected s.itemSize, (paint s item selected).2)]) := by
  constructor
  · intro pm h
    exact paint_of_hit s item selected pm h
  · intro hmiss hfull
    rw [paint_miss_pixmapCache s item selected hmiss,
      paint_miss_payload s item selected hmiss,
      evictIfFull_eq_drop _ hnodup hfull]
    have hnm : ¬ dmem (s.pixmapCache.drop 20)
        (getCacheKey item selected s.itemSize) = true := by
      intro hc
      have hk := (dmem_eq_true_iff _ _).mp hc
      have hsub : dkeys (s.pixmapCache.drop 20) ⊆ dkeys s.pixmapCache :=
        ((List.drop_sublist 20 s.pixmapCache).map Prod.fst).subset
      exact (dlookup_eq_none_iff _ _).mp hmiss (hsub hk)
    unfold dinsert
    rw [if_neg hnm]

/-- Witness for the amended C7: inserting the 201st distinct item into the
full `c7State` cache drops the 20 oldest entries and appends the new one. -/
theorem C7_amended_batch_eviction_witness :
    NodupKeys c7State.pixmapCache ∧
    (paint c7State (c7Item 200) false).1.pixmapCache =
      c7State.pixmapCache.drop 20 ++
        [(getCacheKey (c7Item 200) false c7State.itemSize,
          (paint c7State (c7Item 200) false).2)] :=
  ⟨by decide,
    (C7_amended_batch_eviction c7State (c7Item 200) false (by decide)).2
      (by decide) (by decide)⟩

/-- C8 counterexample: two distinct raw images whose `cacheKey()` values 0
and 2^61 - 1 collide under CPython's integer hash produce identical cache
keys for the same row, so a changed raw image does not always yield a
different key. -/
theorem C8_counterexample_hash_collision :
    c8ItemA.decoration ≠ c8ItemB.decoration ∧
    c8ImageA.fp ≠ c8ImageB.fp ∧
    getCacheKey c8ItemA false { w := 450, h := 650 } =
      getCacheKey c8ItemB false { w := 450, h := 650 } ∧
    getImageCacheKey c8ItemA { w := 450, h := 650 } =
      getImageCacheKey c8ItemB { w := 450, h := 650 } := by
  decide

/-- C8 amended: key derivation is a pure function of (name, type, image
`cacheKey()`, selection flag, item size) — identical inputs always produce
the identical key — and the image fingerprint is the value-based
`hash(cacheKey())` (reduction modulo 2^61 - 1), never a memory address; but
a changed raw image yields a different key only when the hashes differ:
images whose `cacheKey()` values are congruent modulo 2^61 - 1 receive the
same key. -/
theorem C8_amended_fingerprint_collision (nm ty : Option String)
    (img1 img2 : QImage) (selected : Bool) (itemSize : QSize)
    (h1 : img1.isNull = false) (h2 : img2.isNull = false)
    (hfp : pyHash img1.fp = pyHash img2.fp) :
    getCacheKey ⟨nm, ty, some img1⟩ selected itemSize =
      getCacheKey ⟨nm, ty, some img2⟩ selected itemSize ∧
    getImageCacheKey ⟨nm, ty, some img1⟩ itemSize =
      getImageCacheKey ⟨nm, ty, some img2⟩ itemSize := by
  unfold getCacheKey getImageCacheKey imageKeyStr
  simp [h1, h2, hfp]

/-- Witness for the amended C8: `cacheKey()` values 1 and 2^61 are
congruent modulo 2^61 - 1 and produce the same key. -/
theorem C8_amended_fingerprint_collision_witness :
    pyHash c8WImageA.fp = pyHash c8WImageB.fp ∧
    getCacheKey ⟨some "m", some "ty", some c8WImageA⟩ false { w := 450, h := 650 } =
      getCacheKey ⟨some "m", some "ty", some c8WImageB⟩ false { w := 450, h := 650 } :=
  ⟨by decide,
    (C8_amended_fingerprint_collision (some "m") (some "ty") c8WImageA c8WImageB
      false { w := 450, h := 650 } rfl rfl (by decide)).1⟩

/-- C9: a worker completion arriving while the processed-image cache is at
its 100-entry bound leaves the image cache exactly unchanged (the result is
discarded, nothing is evicted) yet still removes the key from the
pending-loads tracker, so the key may be dispatched afresh on the next
request. -/
theorem C9_completion_with_full_cache (s : DelegateState) (cacheKey : String)
    (processed : QImage) (hfull : maxImageCacheSize ≤ s.imageCache.length) :
    (onImageReady s cacheKey processed).imageCache = s.imageCache ∧
    (onImageReady s cacheKey processed).pendingLoads.contains cacheKey = false :=
  ⟨onImageReady_imageCache_unchanged_of_full s cacheKey processed hfull,
    onImageReady_pending_cleared s cacheKey processed⟩

/-- Witness for C9: a completion delivered to a state with 100 cached
processed images is discarded while its pending entry is removed. -/
theorem C9_completion_with_full_cache_witness :
    maxImageCacheSize ≤ c9State.imageCache.length ∧
    c9State.pendingLoads.contains c9Key = true ∧
    (onImageReady c9State c9Key c9Processed).imageCache = c9State.imageCache ∧
    (onImageReady c9State c9Key c9Processed).pendingLoads.contains c9Key = false :=
  ⟨by decide, by decide,
    (C9_completion_with_full_cache c9State c9Key c9Processed (by decide)).1,
    (C9_completion_with_full_cache c9State c9Key c9Processed (by decide)).2⟩

/-- C10: the underscore-joined key derivation is not injective in the
name/type fields: the distinct rows (`a_b`, `c`) and (`a`, `b_c`) with the
same image, selection state and item size derive the same pixmap-cache
key. -/
theorem C10_name_type_aliasing :
    c10ItemA ≠ c10ItemB ∧
    getCacheKey c10ItemA false { w := 450, h := 650 } =
      getCacheKey c10ItemB false { w := 450, h := 650 } := by
  decide
